import Mathlib

/-!
Verification of the neurolib graph-assembly core: a shallow embedding of
`neurolib/encoder/seq_cells.py` (the `CustomCell` / `TwoEncodersCell` /
`NormalTriLCell` recurrent-cell layer) and of
`neurolib/models/models.py` (`Model.prepare_datasets`), together with
theorems settling the specified properties of these operations.

Tensors are kept abstract (a type parameter `T`); builders and nodes are
modelled structurally.  Parts of the repository that the excerpted sources
call but whose code is not available (the `StaticBuilder` node-registration
API and custom-node creation) are modelled from the specification and are
marked `Modelled from the spec:` in their doc comments.
-/

namespace Neurolib

/-- a Python argument that is either a bare tensor or a sequence of tensors.
The source distinguishes the two cases by duck typing: `len(x)` (and
iteration) raises `TypeError` exactly on a bare tensor. -/
inductive PyArg (T : Type) where
  | bare : T → PyArg T
  | seq : List T → PyArg T
deriving DecidableEq, Repr

/-- exceptions raised by the embedded code. -/
inductive PyError where
  | notImplementedError
  | keyError (key : String)
deriving DecidableEq, Repr

/-- wrapping of a bare value into a one-element sequence, as the
arity-normalization in `TwoEncodersCell.__call__` performs it: a sequence is
kept as is, a bare tensor `t` becomes `(t,)`. -/
def normalizeArg {T : Type} : PyArg T → List T
  | .bare t => [t]
  | .seq l => l

/-- the `islot_to_itensor` mapping assembled by `TwoEncodersCell.__call__`
(seq_cells.py lines 140–153), as an association list in insertion order
(all inserted keys are pairwise distinct, so this represents the Python
dict faithfully):
`num_init_states = len(state)` with `TypeError` caught by wrapping a bare
`state` as `(state,)`; then `islot_states = dict(enumerate(state))`, and
`dict(enumerate(inputs, num_init_states))` is merged in, where a `TypeError`
(bare, non-iterable `inputs`) is caught by inserting
`{num_init_states : inputs}` instead. -/
def twoEncodersIslotMap {T : Type} (inputs state : PyArg T) : List (Nat × T) :=
  let st : List T :=
    match state with
    | .bare t => [t]
    | .seq l => l
  let islot_states := st.enum
  match inputs with
  | .seq l => islot_states ++ List.enumFrom st.length l
  | .bare t => islot_states ++ [(st.length, t)]

/-- `TwoEncodersCell.__call__` (seq_cells.py lines 135–158): builds the
islot mapping, invokes the cell's private encoder on it
(`output, _ = self.encoder(islot_to_itensor=inputs)` keeps the first of the
encoder's two outputs) and returns `(output, output)`.  The encoder itself
is the committed custom node, external to this function; it is abstracted
as a function from the mapping to its pair of output tensors. -/
def twoEncodersCall {T : Type} (encoder : List (Nat × T) → T × T)
    (inputs state : PyArg T) : T × T :=
  let output := (encoder (twoEncodersIslotMap inputs state)).1
  (output, output)

/-- the pair of arguments that `NormalTriLCell.__call__` hands to its
encoder: line 228 of seq_cells.py (`output = self.encoder(inputs,
islot_to_itensor)`) forwards both call arguments unchanged — this cell
performs no arity-normalization of its own. -/
def normalTriLCallEncoderArgs (T : Type)
    (inputs islot_to_itensor : Option (PyArg T)) :
    Option (PyArg T) × Option (PyArg T) :=
  (inputs, islot_to_itensor)

/-- `NormalTriLCell.__call__` (seq_cells.py lines 223–229): forwards its two
arguments (both default to `None`) to the encoder and returns
`(output, output)`. -/
def normalTriLCall {T : Type}
    (encoder : Option (PyArg T) → Option (PyArg T) → T)
    (inputs islot_to_itensor : Option (PyArg T)) : T × T :=
  let args := normalTriLCallEncoderArgs T inputs islot_to_itensor
  let output := encoder args.1 args.2
  (output, output)

/-- a tensor shape: a list of dimensions.  State sizes of a cell are lists
of shapes (one shape per state component), as in the repository's tests
(`state_dim=[[3]]`). -/
abbrev Shape := List Nat

/-- the custom composite node declared by
`TwoEncodersCell.declare_cell_encoder`.  Modelled from the spec: §4.3 —
`createCustomNode(num_inputs, num_outputs, name)` yields a node with an
internal builder; `addInner` adds internal nodes; `declareIslot` /
`declareOslot` establish the external-slot alias mapping; `commit()` builds
the internal graph.  The record stores the declarations in source order. -/
structure CustomNode where
  numInputs : Nat
  numOutputs : Nat
  name : String
  /-- internal nodes added via `addInner`: (state sizes, num_inputs),
  handles are their indices 0, 1, … in order of addition. -/
  innerNodes : List (List Shape × Nat)
  /-- directed links (source inner node, destination inner node, islot). -/
  links : List (Nat × Nat × Nat)
  /-- islot declarations (islot, inner node, inner islot). -/
  islotDecls : List (Nat × Nat × Nat)
  /-- oslot declarations (oslot, inner node, inner oslot). -/
  oslotDecls : List (Nat × Nat × Nat)
  committed : Bool
deriving DecidableEq, Repr

/-- a node registered on a builder.  Modelled from the spec: §4.1 node kinds
— input-producing nodes (`addInput`, here always with `NormalInputNode`
class as in the source), inner transformation nodes (`addInner`, the
`node_class` directive is elided) and custom composite nodes.  The first
field is the node's auto-generated handle. -/
inductive BuilderNode where
  | input (name : Nat) (shape : List Shape)
  | inner (name : Nat) (shape : List Shape) (numInputs : Nat)
  | custom (name : Nat) (node : CustomNode)
deriving DecidableEq, Repr

/-- a builder.  Modelled from the spec: §3 — a mapping from node name to
node with insertion order significant (here a list in insertion order), a
monotonically increasing counter for auto-generated node names, and a scope
label. -/
structure Builder where
  scope : String
  nodes : List BuilderNode
  nameCounter : Nat
deriving DecidableEq, Repr

/-- Modelled from the spec: §4.1 `addInput(shape, node_class) -> node_name`
registers a new input-producing node on the builder and returns its
auto-generated handle. -/
def Builder.addInput (b : Builder) (shape : List Shape) : Builder × Nat :=
  ({ b with
      nodes := b.nodes ++ [BuilderNode.input b.nameCounter shape]
      nameCounter := b.nameCounter + 1 },
   b.nameCounter)

/-- Modelled from the spec: §4.1 `addInner(shape, num_inputs, node_class)
-> node_name` registers a new inner node on the builder and returns its
handle. -/
def Builder.addInner (b : Builder) (shape : List Shape) (numInputs : Nat) :
    Builder × Nat :=
  ({ b with
      nodes := b.nodes ++ [BuilderNode.inner b.nameCounter shape numInputs]
      nameCounter := b.nameCounter + 1 },
   b.nameCounter)

/-- Modelled from the spec: §4.3 — registering on the builder the custom
node produced by `createCustomNode` followed by its declarations and
`commit()`; the final state of the node is recorded. -/
def Builder.addCustom (b : Builder) (node : CustomNode) : Builder × Nat :=
  ({ b with
      nodes := b.nodes ++ [BuilderNode.custom b.nameCounter node]
      nameCounter := b.nameCounter + 1 },
   b.nameCounter)

/-- object store for builders: builder objects are identified by ids so
that ownership and aliasing between cells and builders is observable.
`builderOf` maps every id to a builder value; ids below `nextId` are the
allocated ones. -/
structure World where
  builderOf : Nat → Builder
  nextId : Nat

/-- Modelled from the spec: constructing a `StaticBuilder(scope=...)`
(seq_cells.py line 43 calls it with scope `'Cell'`) allocates a fresh,
empty builder object, exclusively owned by its creator. -/
def World.newStaticBuilder (w : World) (scope : String) : World × Nat :=
  ({ builderOf := fun i =>
        if i = w.nextId then { scope := scope, nodes := [], nameCounter := 0 }
        else w.builderOf i
     nextId := w.nextId + 1 },
   w.nextId)

/-- applies an update to the builder object with the given id. -/
def World.updateBuilder (w : World) (i : Nat) (f : Builder → Builder) : World :=
  { w with builderOf := fun j => if j = i then f (w.builderOf i) else w.builderOf j }

/-- `addInput` on the builder object with the given id; returns the new
node's handle. -/
def World.addInput (w : World) (i : Nat) (shape : List Shape) : World × Nat :=
  (w.updateBuilder i (fun b => (b.addInput shape).1),
   ((w.builderOf i).addInput shape).2)

/-- `addInner` on the builder object with the given id; returns the new
node's handle. -/
def World.addInner (w : World) (i : Nat) (shape : List Shape) (numInputs : Nat) :
    World × Nat :=
  (w.updateBuilder i (fun b => (b.addInner shape numInputs).1),
   ((w.builderOf i).addInner shape numInputs).2)

/-- `TwoEncodersCell.declare_cell_encoder` (seq_cells.py lines 117–133):
on the cell's private builder, `createCustomNode(3, 2, name="Custom")`,
two `addInner` calls with `state_size[0:1]` and `state_size[1:2]` (handles
`cust_in1 = 0`, `cust_in2 = 1`), one directed link, three islot and two
oslot declarations, then `commit()`. -/
def declareCellEncoder (state_size : List Shape) : CustomNode :=
  let cust_in1 : Nat := 0
  let cust_in2 : Nat := 1
  { numInputs := 3
    numOutputs := 2
    name := "Custom"
    innerNodes := [(state_size.take 1, 2), ((state_size.drop 1).take 1, 2)]
    links := [(cust_in1, cust_in2, 1)]
    islotDecls := [(0, cust_in1, 0), (1, cust_in2, 0), (2, cust_in1, 1)]
    oslotDecls := [(0, cust_in1, 0), (1, cust_in2, 0)]
    committed := true }

/-- the `TwoEncodersCell` object: `ext_builder` and `builder` are builder
ids (`CustomCell.__init__`, seq_cells.py lines 32–46, stores the caller's
builder as `ext_builder` and a fresh `StaticBuilder(scope='Cell')` as the
private `builder`); the directive bag is elided (no claim concerns it). -/
structure TwoEncodersCellS where
  ext_builder : Nat
  builder : Nat
  num_expected_inputs : Nat
  num_expected_outputs : Nat
  state_dims : List Shape
  cname : String
  encoder : CustomNode
  init_states : List Nat
deriving Repr

/-- `TwoEncodersCell.state_size` (seq_cells.py lines 105–109). -/
def TwoEncodersCellS.state_size (c : TwoEncodersCellS) : List Shape :=
  c.state_dims

/-- `TwoEncodersCell.output_size` (seq_cells.py lines 111–115). -/
def TwoEncodersCellS.output_size (c : TwoEncodersCellS) : List Shape :=
  c.state_dims

/-- `TwoEncodersCell._get_init_states` (seq_cells.py lines 161–171): two
`addInput` calls on `self.ext_builder` with shapes `state_dims[:1]` and
`state_dims[1:]` and `iclass=NormalInputNode`; returns `[init1, init2]`. -/
def twoEncodersGetInitStates (w : World) (extId : Nat)
    (state_dims : List Shape) : World × List Nat :=
  let q1 := w.addInput extId (state_dims.take 1)
  let q2 := q1.1.addInput extId (state_dims.drop 1)
  (q2.1, [q1.2, q2.2])

/-- `TwoEncodersCell.__init__` (seq_cells.py lines 76–96): the `super`
call stores the expected slot counts, the external builder and a fresh
private `StaticBuilder`; then `state_dims = tuple(state_sizes)`, the
default name `'TwoEncCell'`, `self.encoder = self.declare_cell_encoder()`
committed on the private builder, and `self.init_states =
self._get_init_states()` registered on the external builder — all inside
the constructor.  The defaults of the source are `num_inputs=3`,
`num_outputs=2`. -/
def twoEncodersCellInit (w : World) (state_sizes : List Shape) (extId : Nat)
    (num_inputs num_outputs : Nat) : World × TwoEncodersCellS :=
  let p := w.newStaticBuilder "Cell"
  let enc := declareCellEncoder state_sizes
  let w2 := p.1.updateBuilder p.2 (fun b => (b.addCustom enc).1)
  let q := twoEncodersGetInitStates w2 extId state_sizes
  (q.1,
   { ext_builder := extId
     builder := p.2
     num_expected_inputs := num_inputs
     num_expected_outputs := num_outputs
     state_dims := state_sizes
     cname := "TwoEncCell"
     encoder := enc
     init_states := q.2 })

/-- the `NormalTriLCell` object: `CustomCell.__init__` is called with
`builder=None`, so there is no external builder id; `num_outputs` is fixed
to 1. -/
structure NormalTriLCellS where
  ext_builder : Option Nat
  builder : Nat
  num_expected_inputs : Nat
  num_expected_outputs : Nat
  state_dims : List Shape
  name : String
  encoderName : Nat
deriving Repr

/-- `NormalTriLCell.state_size` (seq_cells.py lines 202–206). -/
def NormalTriLCellS.state_size (c : NormalTriLCellS) : List Shape :=
  c.state_dims

/-- `NormalTriLCell.output_size` (seq_cells.py lines 208–212). -/
def NormalTriLCellS.output_size (c : NormalTriLCellS) : List Shape :=
  c.state_dims

/-- `NormalTriLCell.__init__` (seq_cells.py lines 178–193): the `super`
call with `num_outputs=1`, `builder=None` allocates the fresh private
builder; `declare_cell_encoder` (lines 214–221) adds one inner node with
shape `state_dims` and `num_inputs=2` (class `NormalTriLNode`) on the
private builder.  No init-state registration happens at construction. -/
def normalTriLCellInit (w : World) (state_sizes : List Shape)
    (num_inputs : Nat) : World × NormalTriLCellS :=
  let p := w.newStaticBuilder "Cell"
  let q := p.1.addInner p.2 state_sizes 2
  (q.1,
   { ext_builder := none
     builder := p.2
     num_expected_inputs := num_inputs
     num_expected_outputs := 1
     state_dims := state_sizes
     name := "NormalTriLCell"
     encoderName := q.2 })

/-- `NormalTriLCell.get_init_states` (seq_cells.py lines 239–244): one
`addInput` on the caller-supplied external builder with shape
`state_dims`; returns the one-element handle list. -/
def normalTriLGetInitStates (w : World) (extId : Nat)
    (state_dims : List Shape) : World × List Nat :=
  let q := w.addInput extId state_dims
  (q.1, [q.2])

/-- the number of input-producing nodes of a builder. -/
def Builder.inputNodeCount (b : Builder) : Nat :=
  (b.nodes.filter fun n =>
    match n with
    | BuilderNode.input _ _ => true
    | _ => false).length

/-- the three cell classes of seq_cells.py, for method-resolution facts. -/
inductive CellClass where
  | customCell
  | twoEncodersCell
  | normalTriLCell
deriving DecidableEq, Repr

/-- `state_size` as resolved on an instance of each class: the abstract
base raises `NotImplementedError` (seq_cells.py lines 53–57); both concrete
classes override it to return `state_dims` (lines 105–109, 202–206). -/
def stateSizeDispatch (c : CellClass) (state_dims : List Shape) :
    Except PyError (List Shape) :=
  match c with
  | .customCell => .error .notImplementedError
  | .twoEncodersCell => .ok state_dims
  | .normalTriLCell => .ok state_dims

/-- `output_size` as resolved on an instance of each class: the abstract
base raises `NotImplementedError` (seq_cells.py lines 59–63); both concrete
classes override it (lines 111–115, 208–212). -/
def outputSizeDispatch (c : CellClass) (state_dims : List Shape) :
    Except PyError (List Shape) :=
  match c with
  | .customCell => .error .notImplementedError
  | .twoEncodersCell => .ok state_dims
  | .normalTriLCell => .ok state_dims

/-- `get_init_states(ext_builder)` as resolved on an instance of each
class: the abstract base raises `NotImplementedError` (seq_cells.py lines
48–51); `NormalTriLCell` overrides it (lines 239–244); `TwoEncodersCell`
does not override this name — it only defines the private
`_get_init_states` (line 161) — so the base method is inherited. -/
def getInitStatesDispatch (c : CellClass) (w : World) (state_dims : List Shape)
    (extId : Nat) : Except PyError (World × List Nat) :=
  match c with
  | .customCell => .error .notImplementedError
  | .twoEncodersCell => .error .notImplementedError
  | .normalTriLCell => .ok (normalTriLGetInitStates w extId state_dims)

/-- `key.split('_')[0]` (models.py line 119): the first item of Python's
`str.split('_')` is exactly the maximal run of characters before the first
underscore (the whole key when it has no underscore). -/
def keyDset (key : String) : String :=
  String.mk (key.data.takeWhile (fun c => c ≠ '_'))

/-- `"_".join(key.split('_')[1:])` (models.py line 119): joining the
remaining items of `str.split('_')` with `'_'` restores every separator
it removed, so this is exactly the part of the key after the first
underscore (empty when there is none). -/
def keyInode (key : String) : String :=
  String.mk (key.data.dropWhile (fun c => c ≠ '_')).tail

/-- the key under which a dataset entry is re-filed (models.py lines
121–125): `scope + '/' + inode + '_main:0'`. -/
def scopedKey (scope inode : String) : String :=
  scope ++ "/" ++ inode ++ "_main:0"

/-- the allowed dataset-key heads, as the if/elif chain of models.py lines
120–125 tests them. -/
def allowedDset (s : String) : Bool :=
  s = "train" || s = "valid" || s = "test"

/-- the return value of `prepare_datasets`: a dict with exactly the keys
`'train'`, `'valid'` and `'test'` (models.py lines 131–133), each holding
a dict modelled as an association list in insertion order. -/
structure DatasetSplit (V : Type) where
  train : List (String × V)
  valid : List (String × V)
  test : List (String × V)
deriving DecidableEq, Repr

/-- the loop of `Model.prepare_datasets` (models.py lines 118–129): each
entry is filed into the split named by the part of its key before the
first underscore, under the scoped key; any other head raises `KeyError`
at that entry. -/
def prepareDatasetsAux {V : Type} (scope : String) :
    List (String × V) → DatasetSplit V → Except PyError (DatasetSplit V)
  | [], acc => .ok acc
  | kv :: rest, acc =>
    let d_set := keyDset kv.1
    let inode := keyInode kv.1
    if d_set = "train" then
      prepareDatasetsAux scope rest
        { acc with train := acc.train ++ [(scopedKey scope inode, kv.2)] }
    else if d_set = "valid" then
      prepareDatasetsAux scope rest
        { acc with valid := acc.valid ++ [(scopedKey scope inode, kv.2)] }
    else if d_set = "test" then
      prepareDatasetsAux scope rest
        { acc with test := acc.test ++ [(scopedKey scope inode, kv.2)] }
    else .error (.keyError kv.1)

/-- `Model.prepare_datasets` (models.py lines 110–133).  The input dataset
dict is modelled as an association list in iteration order; `scope` is
`self.main_scope`. -/
def prepareDatasets {V : Type} (scope : String) (dataset : List (String × V)) :
    Except PyError (DatasetSplit V) :=
  prepareDatasetsAux scope dataset { train := [], valid := [], test := [] }

/-- the entries a given split receives from a dataset: the entries whose
key head equals `dset`, re-keyed by `scopedKey`, in order. -/
def selectDset {V : Type} (scope dset : String) (dataset : List (String × V)) :
    List (String × V) :=
  (dataset.filter fun kv => keyDset kv.1 == dset).map
    fun kv => (scopedKey scope (keyInode kv.1), kv.2)

/-- a concrete world with one allocated (empty) builder, id 0, used to
instantiate hypotheses at concrete inputs. -/
def sampleWorld : World :=
  { builderOf := fun _ => { scope := "M", nodes := [], nameCounter := 0 }
    nextId := 1 }

/-- C1: in `TwoEncodersCell.__call__` — the one call path that assembles a
slot-index→tensor mapping for the cell's private encoder — the mapping
enumerates the (arity-normalized) state components at consecutive islots
starting at 0, in their given order, followed by the (arity-normalized)
step inputs at the immediately following consecutive islots: it is exactly
the enumeration of states-then-inputs, and its key list is
`0, 1, …, n+m-1`. -/
theorem c1_islot_map_states_then_inputs (T : Type) (inputs state : PyArg T) :
    twoEncodersIslotMap inputs state
      = ((normalizeArg state) ++ (normalizeArg inputs)).enum ∧
    (twoEncodersIslotMap inputs state).map Prod.fst
      = List.range ((normalizeArg state).length + (normalizeArg inputs).length) := by
  have he : twoEncodersIslotMap inputs state
      = ((normalizeArg state) ++ (normalizeArg inputs)).enum := by
    cases inputs <;> cases state <;>
      simp [twoEncodersIslotMap, normalizeArg, List.enum_append, List.enum,
            List.enumFrom, List.enumFrom_append]
  refine ⟨he, ?_⟩
  rw [he, List.enum_map_fst, List.length_append]

/-- C2 counterexample: `NormalTriLCell.__call__` performs no
arity-normalization — with both arguments passed as bare values, the
arguments reaching the encoder are the bare values themselves, not
single-element sequences. -/
theorem c2_normalTriL_forwards_bare_counterexample :
    normalTriLCallEncoderArgs Nat (some (PyArg.bare 5)) (some (PyArg.bare 7))
        = (some (PyArg.bare 5), some (PyArg.bare 7)) ∧
    normalTriLCallEncoderArgs Nat (some (PyArg.bare 5)) (some (PyArg.bare 7))
        ≠ (some (PyArg.seq [5]), some (PyArg.seq [7])) := by
  exact ⟨rfl, by decide⟩

/-- C2 (amended): invoking `TwoEncodersCell.__call__` with a bare
`previous_state` and bare `inputs` does not raise — both are wrapped into
single-element sequences before slot-index assignment, the resulting
mapping is `[(0, state), (1, inputs)]` and the call agrees with the call
on the explicitly wrapped arguments; `NormalTriLCell.__call__`, by
contrast, performs no arity-normalization and forwards both of its
arguments unchanged to its encoder. -/
theorem c2_bare_arguments_normalized (T : Type)
    (enc : List (Nat × T) → T × T) (i s : T) :
    twoEncodersIslotMap (PyArg.bare i) (PyArg.bare s) = [(0, s), (1, i)] ∧
    twoEncodersCall enc (PyArg.bare i) (PyArg.bare s)
      = twoEncodersCall enc (PyArg.seq [i]) (PyArg.seq [s]) ∧
    normalTriLCallEncoderArgs T (some (PyArg.bare i)) (some (PyArg.bare s))
      = (some (PyArg.bare i), some (PyArg.bare s)) :=
  ⟨rfl, rfl, rfl⟩

/-- C4: for both concrete cell variants `output_size` equals `state_size`,
and the single-state cell (`NormalTriLCell`) returns from `__call__` a
pair whose two components are the same value — the emitted output also
serves as the next state. -/
theorem c4_output_size_eq_state_size (c : TwoEncodersCellS)
    (d : NormalTriLCellS) (T : Type)
    (enc : Option (PyArg T) → Option (PyArg T) → T)
    (inputs islot_to_itensor : Option (PyArg T)) :
    c.output_size = c.state_size ∧ d.output_size = d.state_size ∧
    (normalTriLCall enc inputs islot_to_itensor).1
      = (normalTriLCall enc inputs islot_to_itensor).2 :=
  ⟨rfl, rfl, rfl⟩

/-- C9: `TwoEncodersCell.declare_cell_encoder` hard-codes
`createCustomNode(3, 2)`, so the custom node built on the private builder
has 3 external islots and 2 external oslots regardless of the `num_inputs`
and `num_outputs` passed to the constructor, while the declared expected
slot counts are the constructor arguments; whenever `num_inputs ≠ 3` or
`num_outputs ≠ 2` the declared counts disagree with the node actually
built. -/
theorem c9_hardcoded_custom_slot_counts (w : World) (state_sizes : List Shape)
    (extId ni no : Nat) :
    (twoEncodersCellInit w state_sizes extId ni no).2.encoder.numInputs = 3 ∧
    (twoEncodersCellInit w state_sizes extId ni no).2.encoder.numOutputs = 2 ∧
    (twoEncodersCellInit w state_sizes extId ni no).2.num_expected_inputs = ni ∧
    (twoEncodersCellInit w state_sizes extId ni no).2.num_expected_outputs = no ∧
    (ni ≠ 3 ∨ no ≠ 2 →
      (twoEncodersCellInit w state_sizes extId ni no).2.num_expected_inputs
          ≠ (twoEncodersCellInit w state_sizes extId ni no).2.encoder.numInputs ∨
      (twoEncodersCellInit w state_sizes extId ni no).2.num_expected_outputs
          ≠ (twoEncodersCellInit w state_sizes extId ni no).2.encoder.numOutputs) := by
  refine ⟨rfl, rfl, rfl, rfl, fun h => ?_⟩
  rcases h with h | h
  · exact Or.inl h
  · exact Or.inr h

/-- C9 witness: at `num_inputs = 5`, `num_outputs = 2` the declared
expected counts disagree with the custom node actually built. -/
theorem c9_hardcoded_custom_slot_counts_witness :
    (twoEncodersCellInit sampleWorld [[1], [2]] 0 5 2).2.num_expected_inputs
        ≠ (twoEncodersCellInit sampleWorld [[1], [2]] 0 5 2).2.encoder.numInputs ∨
    (twoEncodersCellInit sampleWorld [[1], [2]] 0 5 2).2.num_expected_outputs
        ≠ (twoEncodersCellInit sampleWorld [[1], [2]] 0 5 2).2.encoder.numOutputs :=
  (c9_hardcoded_custom_slot_counts sampleWorld [[1], [2]] 0 5 2).2.2.2.2
    (Or.inl (by decide))

/-- C10: `TwoEncodersCell` declares two state components (its `state_size`
is a 2-tuple), yet `__call__` returns a pair whose two components are the
identical single value taken from the encoder's first output (`output, _ =
self.encoder(...)`; `return (output, output)`) — never a per-component
tuple of both states. -/
theorem c10_call_returns_first_output_twice (w : World) (extId ni no : Nat)
    (s1 s2 : Shape) (T : Type) (enc : List (Nat × T) → T × T)
    (inputs state : PyArg T) :
    ((twoEncodersCellInit w [s1, s2] extId ni no).2.state_size).length = 2 ∧
    twoEncodersCall enc inputs state
      = ((enc (twoEncodersIslotMap inputs state)).1,
         (enc (twoEncodersIslotMap inputs state)).1) :=
  ⟨rfl, rfl⟩

/-- C3 counterexample: `TwoEncodersCell` accepts a `state_sizes` with three
components (nothing in the constructor restricts the arity), yet its
init-state registration registers only two input nodes and returns only
two handles, so with `state_size = (s1, s2, s3)` the returned list does
not have one handle per state component. -/
theorem c3_three_state_components_counterexample :
    ((twoEncodersCellInit sampleWorld [[1], [2], [3]] 0 3 2).2.state_size).length = 3 ∧
    ((twoEncodersCellInit sampleWorld [[1], [2], [3]] 0 3 2).2.init_states).length = 2 ∧
    ((twoEncodersCellInit sampleWorld [[1], [2], [3]] 0 3 2).1.builderOf 0).inputNodeCount = 2 :=
  ⟨rfl, rfl, by decide⟩

/-- C3 (amended): the init-state registration paths register
input-producing nodes on the external builder only — never on the cell's
private builder — and return the handles of exactly the nodes they
register, in order; the number registered is fixed by the cell class (two
for `TwoEncodersCell`, one for `NormalTriLCell`), so it equals the number
`n` of state components exactly when `n` matches that arity: for
`TwoEncodersCell` with `state_size = (s1, s2)` the two nodes carry the
shapes `(s1,)` and `(s2,)` in state order, and for `NormalTriLCell` the
single node carries the whole `state_dims` of its single-state cell. -/
theorem c3_init_states_on_external_builder (w : World) (extId ni no : Nat)
    (h : extId < w.nextId) (s1 s2 : Shape) (dims : List Shape) :
    ((twoEncodersCellInit w [s1, s2] extId ni no).1.builderOf extId).nodes
        = (w.builderOf extId).nodes
          ++ [BuilderNode.input (w.builderOf extId).nameCounter [s1],
              BuilderNode.input ((w.builderOf extId).nameCounter + 1) [s2]] ∧
    (twoEncodersCellInit w [s1, s2] extId ni no).2.init_states
        = [(w.builderOf extId).nameCounter, (w.builderOf extId).nameCounter + 1] ∧
    ((twoEncodersCellInit w [s1, s2] extId ni no).1.builderOf
        (twoEncodersCellInit w [s1, s2] extId ni no).2.builder).inputNodeCount = 0 ∧
    ((normalTriLGetInitStates w extId dims).1.builderOf extId).nodes
        = (w.builderOf extId).nodes
          ++ [BuilderNode.input (w.builderOf extId).nameCounter dims] ∧
    (normalTriLGetInitStates w extId dims).2
        = [(w.builderOf extId).nameCounter] ∧
    (∀ j, j ≠ extId →
      (normalTriLGetInitStates w extId dims).1.builderOf j = w.builderOf j) := by
  have hne : extId ≠ w.nextId := Nat.ne_of_lt h
  refine ⟨?_, ?_, ?_, ?_, ?_, ?_⟩
  · simp [twoEncodersCellInit, twoEncodersGetInitStates, World.addInput,
          World.updateBuilder, World.newStaticBuilder, Builder.addInput,
          Builder.addCustom, hne]
  · simp [twoEncodersCellInit, twoEncodersGetInitStates, World.addInput,
          World.updateBuilder, World.newStaticBuilder, Builder.addInput,
          Builder.addCustom, hne]
  · simp [twoEncodersCellInit, twoEncodersGetInitStates, World.addInput,
          World.updateBuilder, World.newStaticBuilder, Builder.addInput,
          Builder.addCustom, Builder.inputNodeCount, hne, hne.symm]
  · simp [normalTriLGetInitStates, World.addInput, World.updateBuilder,
          Builder.addInput]
  · simp [normalTriLGetInitStates, World.addInput, Builder.addInput]
  · intro j hj
    simp [normalTriLGetInitStates, World.addInput, World.updateBuilder, hj]

/-- C3 witness: instantiated at the sample world with external builder 0
and `state_size = ([1], [2])`, the handles are 0 and 1 and the forwarded
facts evaluate as stated. -/
theorem c3_init_states_on_external_builder_witness :
    (twoEncodersCellInit sampleWorld [[1], [2]] 0 3 2).2.init_states = [0, 1] ∧
    (normalTriLGetInitStates sampleWorld 0 [[3]]).2 = [0] ∧
    (normalTriLGetInitStates sampleWorld 0 [[3]]).1.builderOf 5
      = sampleWorld.builderOf 5 :=
  ⟨(c3_init_states_on_external_builder sampleWorld 0 3 2 (by decide)
      [1] [2] [[3]]).2.1,
   (c3_init_states_on_external_builder sampleWorld 0 3 2 (by decide)
      [1] [2] [[3]]).2.2.2.2.1,
   (c3_init_states_on_external_builder sampleWorld 0 3 2 (by decide)
      [1] [2] [[3]]).2.2.2.2.2 5 (by decide)⟩

/-- C5: constructing a concrete cell immediately (inside the constructor)
builds its private one-step graph — the committed custom node for
`TwoEncodersCell`, the inner `NormalTriLNode` for `NormalTriLCell` — and
`TwoEncodersCell`, which owns its own init-state registration path, also
immediately registers the two init-state nodes on the external builder
passed at construction; `NormalTriLCell`, whose registration path is the
separately-called `get_init_states`, leaves every other builder object
untouched at construction. -/
theorem c5_construction_builds_graph_immediately (w : World)
    (extId ni no : Nat) (h : extId < w.nextId) (ss dims : List Shape) :
    ((twoEncodersCellInit w ss extId ni no).1.builderOf
        (twoEncodersCellInit w ss extId ni no).2.builder).nodes
      = [BuilderNode.custom 0 (declareCellEncoder ss)] ∧
    (twoEncodersCellInit w ss extId ni no).2.encoder = declareCellEncoder ss ∧
    (twoEncodersCellInit w ss extId ni no).2.encoder.committed = true ∧
    ((twoEncodersCellInit w ss extId ni no).1.builderOf extId).nodes.length
      = (w.builderOf extId).nodes.length + 2 ∧
    ((normalTriLCellInit w dims ni).1.builderOf
        (normalTriLCellInit w dims ni).2.builder).nodes
      = [BuilderNode.inner 0 dims 2] ∧
    (∀ j, j ≠ (normalTriLCellInit w dims ni).2.builder →
      (normalTriLCellInit w dims ni).1.builderOf j = w.builderOf j) := by
  have hne : extId ≠ w.nextId := Nat.ne_of_lt h
  refine ⟨?_, rfl, rfl, ?_, ?_, ?_⟩
  · simp [twoEncodersCellInit, twoEncodersGetInitStates, World.addInput,
          World.updateBuilder, World.newStaticBuilder, Builder.addInput,
          Builder.addCustom, hne, hne.symm]
  · simp [twoEncodersCellInit, twoEncodersGetInitStates, World.addInput,
          World.updateBuilder, World.newStaticBuilder, Builder.addInput,
          Builder.addCustom, hne]
  · simp [normalTriLCellInit, World.addInner, World.updateBuilder,
          World.newStaticBuilder, Builder.addInner]
  · intro j hj
    simp only [normalTriLCellInit, World.newStaticBuilder] at hj ⊢
    simp [World.addInner, World.updateBuilder, World.newStaticBuilder,
          Builder.addInner, hj]

/-- C5 witness: at the sample world, after construction of each cell the
private builder holds the step graph and the external builder holds the
two init-state nodes of the `TwoEncodersCell`. -/
theorem c5_construction_builds_graph_immediately_witness :
    ((twoEncodersCellInit sampleWorld [[1], [2]] 0 3 2).1.builderOf
        (twoEncodersCellInit sampleWorld [[1], [2]] 0 3 2).2.builder).nodes
      = [BuilderNode.custom 0 (declareCellEncoder [[1], [2]])] ∧
    (normalTriLCellInit sampleWorld [[3]] 2).1.builderOf 0
      = sampleWorld.builderOf 0 :=
  ⟨(c5_construction_builds_graph_immediately sampleWorld 0 3 2 (by decide)
      [[1], [2]] [[3]]).1,
   (c5_construction_builds_graph_immediately sampleWorld 0 3 2 (by decide)
      [[1], [2]] [[3]]).2.2.2.2.2 0 (by decide)⟩

/-- C7: every cell instance exclusively owns its private single-step
builder — constructing two `TwoEncodersCell` instances with identical
state sizes against the same external builder allocates two distinct
private builder objects, both distinct from the external builder, and the
construction of the second cell leaves the first cell's private builder
unchanged. -/
theorem c7_private_builder_exclusive (w : World) (extId ni no : Nat)
    (h : extId < w.nextId) (ss : List Shape) :
    (twoEncodersCellInit w ss extId ni no).2.builder
        ≠ (twoEncodersCellInit (twoEncodersCellInit w ss extId ni no).1
            ss extId ni no).2.builder ∧
    extId ≠ (twoEncodersCellInit w ss extId ni no).2.builder ∧
    extId ≠ (twoEncodersCellInit (twoEncodersCellInit w ss extId ni no).1
        ss extId ni no).2.builder ∧
    (twoEncodersCellInit (twoEncodersCellInit w ss extId ni no).1
        ss extId ni no).1.builderOf
        (twoEncodersCellInit w ss extId ni no).2.builder
      = (twoEncodersCellInit w ss extId ni no).1.builderOf
          (twoEncodersCellInit w ss extId ni no).2.builder := by
  have hne : extId ≠ w.nextId := Nat.ne_of_lt h
  have hb1 : (twoEncodersCellInit w ss extId ni no).2.builder = w.nextId := rfl
  have hnext : (twoEncodersCellInit w ss extId ni no).1.nextId = w.nextId + 1 := by
    simp [twoEncodersCellInit, twoEncodersGetInitStates, World.addInput,
          World.updateBuilder, World.newStaticBuilder]
  have hb2 : (twoEncodersCellInit (twoEncodersCellInit w ss extId ni no).1
      ss extId ni no).2.builder = w.nextId + 1 := by
    rw [show (twoEncodersCellInit (twoEncodersCellInit w ss extId ni no).1
        ss extId ni no).2.builder
      = (twoEncodersCellInit w ss extId ni no).1.nextId from rfl, hnext]
  refine ⟨?_, ?_, ?_, ?_⟩
  · rw [hb1, hb2]; omega
  · rw [hb1]; exact hne
  · rw [hb2]; omega
  · rw [hb1]
    have h2 : w.nextId ≠ (twoEncodersCellInit w ss extId ni no).1.nextId := by
      rw [hnext]; omega
    have h3 : w.nextId ≠ extId := hne.symm
    conv_lhs =>
      rw [show (twoEncodersCellInit (twoEncodersCellInit w ss extId ni no).1
          ss extId ni no).1
        = ((((twoEncodersCellInit w ss extId ni no).1.newStaticBuilder
              "Cell").1.updateBuilder
              ((twoEncodersCellInit w ss extId ni no).1.nextId)
              (fun b => (b.addCustom (declareCellEncoder ss)).1)).addInput
              extId (ss.take 1)).1.updateBuilder extId
              (fun b => (b.addInput (ss.drop 1)).1) from rfl]
    simp [World.addInput, World.updateBuilder, World.newStaticBuilder, h2, h3]

/-- C7 witness: at the sample world the two private builders get ids 1 and
2, both distinct from the external builder 0, and the first private
builder is unchanged by the second construction. -/
theorem c7_private_builder_exclusive_witness :
    (twoEncodersCellInit sampleWorld [[1]] 0 3 2).2.builder
        ≠ (twoEncodersCellInit (twoEncodersCellInit sampleWorld [[1]] 0 3 2).1
            [[1]] 0 3 2).2.builder ∧
    0 ≠ (twoEncodersCellInit sampleWorld [[1]] 0 3 2).2.builder :=
  ⟨(c7_private_builder_exclusive sampleWorld 0 3 2 (by decide) [[1]]).1,
   (c7_private_builder_exclusive sampleWorld 0 3 2 (by decide) [[1]]).2.1⟩

/-- C6 counterexample: `TwoEncodersCell` is a concrete cell variant that
does not define `get_init_states` — it only defines the private
`_get_init_states` — so calling `get_init_states` on one of its instances
still raises `NotImplementedError` from the abstract base. -/
theorem c6_twoEncoders_inherits_abstract_counterexample :
    getInitStatesDispatch CellClass.twoEncodersCell sampleWorld [[1], [2]] 0
      = Except.error PyError.notImplementedError :=
  rfl

/-- C6 (amended): on the abstract base `CustomCell`, accessing
`state_size` or `output_size` or calling `get_init_states` raises
`NotImplementedError`, and an instance that does not override a member
gets the raising base member; both concrete variants define `state_size`
and `output_size`, and `NormalTriLCell` also defines `get_init_states`,
but `TwoEncodersCell` does not override `get_init_states` (its init-state
registration is the private `_get_init_states`), so that call raises
`NotImplementedError` even on this concrete variant. -/
theorem c6_abstract_base_raises (w : World) (dims : List Shape) (extId : Nat) :
    stateSizeDispatch CellClass.customCell dims
        = Except.error PyError.notImplementedError ∧
    outputSizeDispatch CellClass.customCell dims
        = Except.error PyError.notImplementedError ∧
    getInitStatesDispatch CellClass.customCell w dims extId
        = Except.error PyError.notImplementedError ∧
    stateSizeDispatch CellClass.twoEncodersCell dims = Except.ok dims ∧
    outputSizeDispatch CellClass.twoEncodersCell dims = Except.ok dims ∧
    stateSizeDispatch CellClass.normalTriLCell dims = Except.ok dims ∧
    outputSizeDispatch CellClass.normalTriLCell dims = Except.ok dims ∧
    (∃ r, getInitStatesDispatch CellClass.normalTriLCell w dims extId
        = Except.ok r) ∧
    getInitStatesDispatch CellClass.twoEncodersCell w dims extId
        = Except.error PyError.notImplementedError :=
  ⟨rfl, rfl, rfl, rfl, rfl, rfl, rfl, ⟨_, rfl⟩, rfl⟩

/-- helper: when every key head of the dataset is allowed, the
`prepare_datasets` loop succeeds and appends each split's selection to the
accumulator. -/
theorem prepareDatasetsAux_ok {V : Type} (scope : String)
    (ds : List (String × V)) :
    ∀ acc : DatasetSplit V, (∀ kv ∈ ds, allowedDset (keyDset kv.1) = true) →
      prepareDatasetsAux scope ds acc
        = Except.ok { train := acc.train ++ selectDset scope "train" ds
                      valid := acc.valid ++ selectDset scope "valid" ds
                      test := acc.test ++ selectDset scope "test" ds } := by
  induction ds with
  | nil => intro acc _; simp [prepareDatasetsAux, selectDset]
  | cons kv rest ih =>
    intro acc hall
    have hkv : allowedDset (keyDset kv.1) = true :=
      hall kv (List.mem_cons_self _ _)
    have hrest : ∀ x ∈ rest, allowedDset (keyDset x.1) = true :=
      fun x hx => hall x (List.mem_cons_of_mem _ hx)
    rcases (by simpa [allowedDset, or_assoc] using hkv :
        keyDset kv.1 = "train" ∨ keyDset kv.1 = "valid" ∨
          keyDset kv.1 = "test") with h1 | h1 | h1 <;>
      simp [prepareDatasetsAux, h1, ih _ hrest, selectDset]

/-- helper: when some key head of the dataset is not allowed, the
`prepare_datasets` loop raises `KeyError` naming an offending key of the
dataset, whatever the accumulator. -/
theorem prepareDatasetsAux_error {V : Type} (scope : String)
    (ds : List (String × V)) :
    ∀ acc : DatasetSplit V,
      (∃ kv ∈ ds, allowedDset (keyDset kv.1) = false) →
      ∃ k v, (k, v) ∈ ds ∧ allowedDset (keyDset k) = false ∧
        prepareDatasetsAux scope ds acc = Except.error (PyError.keyError k) := by
  induction ds with
  | nil =>
    rintro acc ⟨kv, hm, _⟩
    exact absurd hm (List.not_mem_nil kv)
  | cons kv rest ih =>
    intro acc hex
    by_cases hgood : allowedDset (keyDset kv.1) = true
    · have hrest : ∃ x ∈ rest, allowedDset (keyDset x.1) = false := by
        rcases hex with ⟨y, hy, hyb⟩
        rcases List.mem_cons.mp hy with rfl | hy'
        · rw [hgood] at hyb; cases hyb
        · exact ⟨y, hy', hyb⟩
      rcases (by simpa [allowedDset, or_assoc] using hgood :
          keyDset kv.1 = "train" ∨ keyDset kv.1 = "valid" ∨
            keyDset kv.1 = "test") with h1 | h1 | h1 <;>
        · obtain ⟨k, v, hmem, hbad, heq⟩ := ih _ hrest
          exact ⟨k, v, List.mem_cons_of_mem _ hmem, hbad, by
            simp [prepareDatasetsAux, h1]; exact heq⟩
    · have hbad : allowedDset (keyDset kv.1) = false :=
        Bool.eq_false_iff.mpr hgood
      obtain ⟨hn1, hn2, hn3⟩ :
          ¬keyDset kv.1 = "train" ∧ ¬keyDset kv.1 = "valid" ∧
            ¬keyDset kv.1 = "test" := by
        simpa [allowedDset, and_assoc] using hbad
      exact ⟨kv.1, kv.2, List.mem_cons_self _ _, hbad, by
        simp [prepareDatasetsAux, hn1, hn2, hn3]⟩

/-- C8: `Model.prepare_datasets` raises a `KeyError` exactly when some key
of the input dataset has a head (the part before the first underscore)
other than `'train'`, `'valid'`, `'test'` — and the error it raises is a
`KeyError` naming such a key; otherwise it returns a dict with exactly the
keys `'train'`, `'valid'` and `'test'`, in which each input entry
`p_inode` appears in the split for head `p` under the key
`scope + '/' + inode + '_main:0'`, in input order. -/
theorem c8_prepare_datasets_key_filing (V : Type) (scope : String)
    (ds : List (String × V)) :
    ((∃ e, prepareDatasets scope ds = Except.error e)
        ↔ ∃ kv ∈ ds, keyDset kv.1 ∉ (["train", "valid", "test"] : List String)) ∧
    (∀ e, prepareDatasets scope ds = Except.error e →
        ∃ k v, (k, v) ∈ ds ∧
          keyDset k ∉ (["train", "valid", "test"] : List String) ∧
          e = PyError.keyError k) ∧
    ((∀ kv ∈ ds, keyDset kv.1 ∈ (["train", "valid", "test"] : List String)) →
      prepareDatasets scope ds
        = Except.ok { train := selectDset scope "train" ds
                      valid := selectDset scope "valid" ds
                      test := selectDset scope "test" ds }) := by
  have hchar : ∀ s : String,
      allowedDset s = false ↔ s ∉ (["train", "valid", "test"] : List String) := by
    intro s
    constructor
    · intro hs hm
      rcases (by simpa using hm : s = "train" ∨ s = "valid" ∨ s = "test")
        with h | h | h <;> simp [allowedDset, h] at hs
    · intro hm
      have : ¬s = "train" ∧ ¬s = "valid" ∧ ¬s = "test" := by
        simpa [not_or] using hm
      simp [allowedDset, this.1, this.2.1, this.2.2]
  have hok : (∀ kv ∈ ds, allowedDset (keyDset kv.1) = true) →
      prepareDatasets scope ds
        = Except.ok { train := selectDset scope "train" ds
                      valid := selectDset scope "valid" ds
                      test := selectDset scope "test" ds } := by
    intro hall
    simpa using prepareDatasetsAux_ok scope ds
      { train := [], valid := [], test := [] } hall
  refine ⟨⟨?_, ?_⟩, ?_, ?_⟩
  · intro ⟨e, he⟩
    by_contra hno
    push_neg at hno
    have hall : ∀ kv ∈ ds, allowedDset (keyDset kv.1) = true := by
      intro kv hm
      have := hno kv hm
      by_contra hc
      exact ((hchar (keyDset kv.1)).mp (Bool.eq_false_iff.mpr hc)) this
    rw [hok hall] at he
    cases he
  · intro ⟨kv, hm, hbad⟩
    obtain ⟨k, v, _, _, heq⟩ := prepareDatasetsAux_error scope ds
      { train := [], valid := [], test := [] }
      ⟨kv, hm, (hchar (keyDset kv.1)).mpr hbad⟩
    exact ⟨PyError.keyError k, heq⟩
  · intro e he
    have hex : ∃ kv ∈ ds, allowedDset (keyDset kv.1) = false := by
      by_contra hno
      push_neg at hno
      have hall : ∀ kv ∈ ds, allowedDset (keyDset kv.1) = true := by
        intro kv hm
        by_contra hc
        exact hno kv hm (Bool.eq_false_iff.mpr hc)
      rw [hok hall] at he
      cases he
    obtain ⟨k, v, hmem, hbad, heq⟩ := prepareDatasetsAux_error scope ds
      { train := [], valid := [], test := [] } hex
    have heq2 : prepareDatasets scope ds = Except.error (PyError.keyError k) := heq
    rw [he] at heq2
    exact ⟨k, v, hmem, (hchar (keyDset k)).mp hbad, Except.error.inj heq2⟩
  · intro hall
    refine hok fun kv hm => ?_
    by_contra hc
    exact ((hchar (keyDset kv.1)).mp (Bool.eq_false_iff.mpr hc)) (hall kv hm)

/-- C8 witness: a concrete dataset with one key per split, including one
inode containing a further underscore, is filed as stated. -/
theorem c8_prepare_datasets_key_filing_witness :
    prepareDatasets "M"
        [("train_Observation", (0 : Nat)), ("valid_Observation", 1),
         ("test_x_y", 2)]
      = Except.ok { train := [("M/Observation_main:0", 0)]
                    valid := [("M/Observation_main:0", 1)]
                    test := [("M/x_y_main:0", 2)] } := by
  have h := (c8_prepare_datasets_key_filing Nat "M"
      [("train_Observation", (0 : Nat)), ("valid_Observation", 1),
       ("test_x_y", 2)]).2.2 (by decide)
  refine h.trans (congrArg Except.ok ?_)
  decide

end Neurolib
